import Mathlib

/-!
Shallow embedding of `app.py` from the LegalBOT-RAG repository: a Flask
RAG chat application.  Third-party library calls (PDF parsing, the text
splitter, FAISS, the Ollama LLM, `json.loads`/`json.dumps`) are modelled
either as parameters of the embedded functions or, where the spec
describes their behaviour, as definitions marked `Modelled from the spec`.
-/

namespace LegalBot

/-- The `langchain.schema.Document` class: as used in `app.py` only the
`page_content` field is ever set (`Document(page_content=chunk)`). -/
structure Document where
  page_content : String
deriving DecidableEq, Repr

/-- A file in the data directory: its name and, when it is a PDF, its
pages in page order (`for page in doc` iterates pages in order). -/
structure DirFile where
  name : String
  pages : List String
deriving DecidableEq, Repr

/-- The function `extract_text_from_pdf` (app.py lines 31-36): starts from the empty
string and appends each page's text in page order. -/
def extract_text_from_pdf (pages : List String) : String :=
  pages.foldl (fun text page => text ++ page) ""

/-- The `chunk_size=1000` argument passed to `RecursiveCharacterTextSplitter` (app.py line 43). -/
def chunk_size : Nat := 1000

/-- The `chunk_overlap=200` argument passed to `RecursiveCharacterTextSplitter` (app.py line 43). -/
def chunk_overlap : Nat := 200

/-- Modelled from the spec: the text-splitting library
(`RecursiveCharacterTextSplitter.split_text`) is not part of this
repository; the spec says it "splits extracted text into overlapping
fixed-size windows".  Fuel-indexed helper: each step emits a window of at
most `chunk_size` characters and advances by `chunk_size - chunk_overlap`
characters, so consecutive windows overlap by `chunk_overlap`. -/
def splitWindowsAux : Nat → List Char → List (List Char)
  | 0, cs => [cs]
  | fuel + 1, cs =>
    if cs.length ≤ chunk_size then [cs]
    else cs.take chunk_size :: splitWindowsAux fuel (cs.drop (chunk_size - chunk_overlap))

/-- Modelled from the spec: `splitter.split_text(text)` as overlapping
fixed-size windows of `chunk_size` characters with `chunk_overlap`
characters of overlap.  The fuel `text.data.length` is always sufficient
since each step consumes `chunk_size - chunk_overlap = 800` characters. -/
def split_text (text : String) : List String :=
  (splitWindowsAux text.data.length text.data).map fun cs => String.mk cs

/-- The function `create_vector_store` (app.py lines 39-60), with the library splitter
as a parameter.  The FAISS store is modelled by its content: the list
`all_docs` of documents it is built from.  The Python loop appends, for
each file of the data directory whose name ends in `".pdf"`, one
`Document` per chunk of the split extracted text; other files are
skipped. -/
def create_vector_store (splitter : String → List String) (files : List DirFile) :
    List Document :=
  files.foldl
    (fun all_docs file =>
      if file.name.endsWith ".pdf" then
        all_docs ++ (splitter (extract_text_from_pdf file.pages)).map
          (fun chunk => { page_content := chunk })
      else all_docs)
    []

/-- Outcome of the startup code: the index in use, whether it was rebuilt
from the PDFs, and whether it was saved to disk during startup. -/
structure StartupResult where
  db : List Document
  rebuilt : Bool
  saved : Bool
deriving DecidableEq, Repr

/-- The module-level `try/except` (app.py lines 62-68): `loadResult` is
`some d` when `FAISS.load_local` returns index `d` and `none` when it
raises any exception, in which case `create_vector_store` rebuilds from
the data directory (and saves: `db.save_local(INDEX_DIR)` runs inside
`create_vector_store`). -/
def loadOrCreate (loadResult : Option (List Document))
    (splitter : String → List String) (files : List DirFile) : StartupResult :=
  match loadResult with
  | some d => { db := d, rebuilt := false, saved := false }
  | none => { db := create_vector_store splitter files, rebuilt := true, saved := true }

/-- Modelled from the spec: the `RetrievalQA` chain's prompt construction
is library code; the spec says it "concatenates results into a prompt"
together with the question. -/
def makePrompt (docs : List Document) (query : String) : String :=
  String.join (docs.map Document.page_content) ++ query

/-- Modelled from the spec: `qa_chain.run` (the `RetrievalQA` chain of
app.py line 71) "performs nearest-neighbor retrieval against the index,
concatenates results into a prompt, and forwards it to a locally-hosted
generative model".  `retriever` is `db.as_retriever()` and `llm` the
Ollama model. -/
def qa_chain_run (retriever : String → List Document) (llm : String → String)
    (query : String) : String :=
  llm (makePrompt (retriever query) query)

/-- HTTP methods accepted by the single route (app.py line 354). -/
inductive Method
  | GET
  | POST
deriving DecidableEq, Repr

/-- A conversation turn: the handler only ever builds dicts with exactly
the keys `role` and `content` (app.py lines 370, 376). -/
structure Turn where
  role : String
  content : String
deriving DecidableEq, Repr

/-- An incoming HTTP request: method, cookies, form fields and query
arguments, each as an association list. -/
structure Request where
  method : Method
  cookies : List (String × String)
  form : List (String × String)
  args : List (String × String)
deriving DecidableEq, Repr

/-- The semantic content of the rendered template (app.py lines 74-352):
the theme attribute, the conversation rendered as chat bubbles, and
whether the welcome message is shown — the template shows it exactly when
the conversation is empty (`{% if not conversation %}`, line 321). -/
structure Page where
  theme : String
  conversation : List Turn
  showWelcome : Bool
deriving DecidableEq, Repr

/-- Rendering `render_template_string(HTML_TEMPLATE, conversation=..., theme=...)`. -/
def renderPage (theme : String) (conversation : List Turn) : Page :=
  { theme := theme, conversation := conversation, showWelcome := conversation.isEmpty }

/-- The `href` of the "Clear Conversation" link in the template
(app.py line 328): a plain link, hence a GET, to `/`. -/
def clear_conversation_href : String := "/"

/-- The response produced by the handler: rendered page, the cookies set
on the response, and the list of queries sent to the QA chain while
handling the request. -/
structure HandlerResult where
  page : Page
  setCookies : List (String × String)
  llmCalls : List String
deriving DecidableEq, Repr

/-- Python `cookies.get(key, dflt)`: lookup with a default. -/
def cookiesGet (cookies : List (String × String)) (key dflt : String) : String :=
  match List.lookup key cookies with
  | some v => v
  | none => dflt

/-- The route table registered on the Flask app:
`@app.route("/", methods=["GET", "POST"])` (app.py line 354) is the only
route registration in the file. -/
def routes : List (String × List Method) := [("/", [Method.GET, Method.POST])]

/-- Line 393 of app.py: new_theme is dark if the incoming theme is light, else light. -/
def toggledTheme (theme : String) : String :=
  if theme == "light" then "dark" else "light"

/-- Lines 357-361 of app.py: when the `conversation` cookie is absent the
conversation is `[]`; otherwise `json.loads` parses its value (the
`'[]'` default of `.get` is dead there, the cookie is present).
`parseConv` models `json.loads` restricted to lists of role/content
dicts, returning `none` exactly when it would raise. -/
def readConversation (parseConv : String → Option (List Turn))
    (cookies : List (String × String)) : Option (List Turn) :=
  match List.lookup "conversation" cookies with
  | none => some []
  | some _ => parseConv (cookiesGet cookies "conversation" "[]")

/-- The conversation update done by the POST branch (app.py lines
366-376): append the user turn, run the chain, append the bot turn. -/
def postStep (retriever : String → List Document) (llm : String → String)
    (conversation : List Turn) (query : String) : List Turn :=
  conversation ++
    [{ role := "user", content := query },
     { role := "bot", content := qa_chain_run retriever llm query }]

/-- The `home` handler (app.py lines 354-396).  Returns `none` when the
request raises: `json.loads` failing on a present `conversation` cookie,
or `request.form["query"]` missing on a POST.  `dumpConv` models
`json.dumps`.  The theme cookie is set when `request.args.get('toggle_theme')`
is truthy, i.e. present and non-empty. -/
def home (retriever : String → List Document) (llm : String → String)
    (parseConv : String → Option (List Turn)) (dumpConv : List Turn → String)
    (req : Request) : Option HandlerResult :=
  match readConversation parseConv req.cookies with
  | none => none
  | some conversation =>
    let theme := cookiesGet req.cookies "theme" "light"
    match
      (match req.method with
       | Method.POST =>
         match List.lookup "query" req.form with
         | none => none
         | some query => some (postStep retriever llm conversation query, [query])
       | Method.GET => some (conversation, ([] : List String))) with
    | none => none
    | some (conversation2, llmCalls) =>
      some
        { page := renderPage theme conversation2
          setCookies :=
            (match req.method with
             | Method.POST => [("conversation", dumpConv conversation2)]
             | Method.GET => []) ++
            (match List.lookup "toggle_theme" req.args with
             | none => []
             | some v => if v == "" then [] else [("theme", toggledTheme theme)])
          llmCalls := llmCalls }

/-- The conversation lists that can ever be stored in the cookie when
starting from an empty conversation: the server only ever writes the
result of `postStep` applied to the previous conversation. -/
inductive ReachableConv (retriever : String → List Document) (llm : String → String) :
    List Turn → Prop
  | nil : ReachableConv retriever llm []
  | step (c : List Turn) (q : String) :
      ReachableConv retriever llm c →
      ReachableConv retriever llm (postStep retriever llm c q)

/-- A conversation strictly alternates `user`, `bot`, `user`, `bot`, ...
and has even length. -/
def userBotAlternating : List Turn → Bool
  | [] => true
  | [_] => false
  | u :: b :: rest => u.role == "user" && b.role == "bot" && userBotAlternating rest

/-! ### Helper lemmas -/

theorem create_vector_store_foldl (splitter : String → List String)
    (files : List DirFile) (acc : List Document) :
    files.foldl
      (fun all_docs file =>
        if file.name.endsWith ".pdf" then
          all_docs ++ (splitter (extract_text_from_pdf file.pages)).map
            (fun chunk => { page_content := chunk })
        else all_docs)
      acc =
    acc ++
      ((files.filter (fun f => f.name.endsWith ".pdf")).map
        (fun f => (splitter (extract_text_from_pdf f.pages)).map
          (fun chunk => ({ page_content := chunk } : Document)))).flatten := by
  induction files generalizing acc with
  | nil => simp
  | cons f rest ih =>
    by_cases h : f.name.endsWith ".pdf" <;>
      simp [List.foldl_cons, h, ih, List.filter_cons, List.append_assoc]

theorem splitWindowsAux_length_le (fuel : Nat) (cs : List Char)
    (hfuel : cs.length ≤ (chunk_size - chunk_overlap) * fuel + chunk_size) :
    ∀ c ∈ splitWindowsAux fuel cs, c.length ≤ chunk_size := by
  induction fuel generalizing cs with
  | zero =>
    intro c hc
    simp only [splitWindowsAux, List.mem_singleton] at hc
    subst hc
    simpa using hfuel
  | succ n ih =>
    intro c hc
    simp only [splitWindowsAux] at hc
    by_cases h : cs.length ≤ chunk_size
    · simp only [if_pos h, List.mem_singleton] at hc
      subst hc
      exact h
    · simp only [if_neg h, List.mem_cons] at hc
      rcases hc with hc | hc
      · subst hc
        simp
      · refine ih (cs.drop (chunk_size - chunk_overlap)) ?_ c hc
        have hl : (cs.drop (chunk_size - chunk_overlap)).length =
            cs.length - (chunk_size - chunk_overlap) := by
          simp
        simp only [chunk_size, chunk_overlap] at hfuel hl ⊢
        omega

/-! ### Claim theorems -/

/-- C2: at startup, if loading the persisted index succeeds (`loadResult
= some d`) the existing index `d` is reused, nothing is rebuilt or saved;
if loading raises (`loadResult = none`) the index is rebuilt by
`create_vector_store` from the data directory and saved to disk.  These
are the only two paths, and either way `loadOrCreate` yields a usable
index. -/
theorem loadOrCreate_spec (splitter : String → List String) (files : List DirFile)
    (loadResult : Option (List Document)) :
    (∀ d, loadResult = some d →
      loadOrCreate loadResult splitter files =
        { db := d, rebuilt := false, saved := false }) ∧
    (loadResult = none →
      loadOrCreate loadResult splitter files =
        { db := create_vector_store splitter files, rebuilt := true, saved := true }) ∧
    ((loadOrCreate loadResult splitter files).rebuilt = false →
      loadResult = some (loadOrCreate loadResult splitter files).db) := by
  refine ⟨?_, ?_, ?_⟩ <;> cases loadResult <;> simp [loadOrCreate]

/-- C3: the vector store is built from exactly the files of the data
directory whose names end in `".pdf"`, in directory order; each such file
contributes one `Document` per chunk of the split of its extracted text,
where the extracted text is the concatenation of the file's pages in page
order; all other files contribute nothing. -/
theorem create_vector_store_spec (splitter : String → List String)
    (files : List DirFile) :
    create_vector_store splitter files =
      ((files.filter (fun f => f.name.endsWith ".pdf")).map
        (fun f => (splitter (extract_text_from_pdf f.pages)).map
          (fun chunk => ({ page_content := chunk } : Document)))).flatten ∧
    (∀ pages : List String, extract_text_from_pdf pages = String.join pages) ∧
    create_vector_store splitter (files.filter (fun f => ¬ f.name.endsWith ".pdf")) = [] := by
  refine ⟨?_, fun pages => rfl, ?_⟩
  · simpa using create_vector_store_foldl splitter files []
  · have h := create_vector_store_foldl splitter
      (files.filter (fun f => ¬ f.name.endsWith ".pdf")) []
    rw [create_vector_store, h, List.filter_filter]
    simp

/-- Witness for C2 at concrete inputs: a successful load is reused
unchanged, a failed load rebuilds from the PDFs and saves. -/
theorem loadOrCreate_spec_witness :
    loadOrCreate (some [{ page_content := "x" }]) (fun _ => []) [] =
      { db := [{ page_content := "x" }], rebuilt := false, saved := false } ∧
    loadOrCreate none (fun t => [t]) [{ name := "a.pdf", pages := ["p"] }] =
      { db := create_vector_store (fun t => [t]) [{ name := "a.pdf", pages := ["p"] }],
        rebuilt := true, saved := true } :=
  ⟨(loadOrCreate_spec (fun _ => []) [] (some [{ page_content := "x" }])).1 _ rfl,
   (loadOrCreate_spec (fun t => [t]) [{ name := "a.pdf", pages := ["p"] }] none).2.1 rfl⟩

/-- C4: the chunker is configured with window size 1000 and overlap 200,
and every chunk it produces has length at most 1000. -/
theorem split_text_chunk_bound :
    chunk_size = 1000 ∧ chunk_overlap = 200 ∧
    ∀ (text : String), ∀ c ∈ split_text text, c.length ≤ 1000 := by
  refine ⟨rfl, rfl, fun text c hc => ?_⟩
  simp only [split_text, List.mem_map] at hc
  obtain ⟨cs, hmem, rfl⟩ := hc
  have h := splitWindowsAux_length_le text.data.length text.data
    (by simp only [chunk_size, chunk_overlap]; omega) cs hmem
  simpa [String.length, chunk_size] using h

/-- Witness for C4 at a concrete input: `"ab"` is a chunk of
`split_text "ab"` and has length at most 1000. -/
theorem split_text_chunk_bound_witness :
    "ab" ∈ split_text "ab" ∧ String.length "ab" ≤ 1000 :=
  ⟨by decide, split_text_chunk_bound.2.2 "ab" "ab" (by decide)⟩

/-- C1: on a POST carrying form field `query` (with a readable incoming
conversation `conv`), the handler appends the user turn, runs the
retrieval-QA chain (retrieval followed by the local model on the stuffed
prompt), appends the bot turn, and the `conversation` cookie set on the
response is exactly `conv` with those two turns appended in that order. -/
theorem home_post_appends_two_turns (retriever : String → List Document)
    (llm : String → String) (parseConv : String → Option (List Turn))
    (dumpConv : List Turn → String) (req : Request) (q : String) (conv : List Turn)
    (hm : req.method = Method.POST)
    (hq : List.lookup "query" req.form = some q)
    (hc : readConversation parseConv req.cookies = some conv) :
    ∃ r, home retriever llm parseConv dumpConv req = some r ∧
      r.page.conversation =
        conv ++ [{ role := "user", content := q },
                 { role := "bot", content := qa_chain_run retriever llm q }] ∧
      List.lookup "conversation" r.setCookies =
        some (dumpConv (conv ++
          [{ role := "user", content := q },
           { role := "bot", content := qa_chain_run retriever llm q }])) ∧
      r.llmCalls = [q] ∧
      qa_chain_run retriever llm q = llm (makePrompt (retriever q) q) := by
    refine ⟨{ page := renderPage (cookiesGet req.cookies "theme" "light")
                (postStep retriever llm conv q)
              setCookies := [("conversation", dumpConv (postStep retriever llm conv q))] ++
                (match List.lookup "toggle_theme" req.args with
                 | none => []
                 | some v => if v == "" then []
                   else [("theme", toggledTheme (cookiesGet req.cookies "theme" "light"))])
              llmCalls := [q] }, ?_, ?_, ?_, rfl, rfl⟩
    · simp [home, hc, hm, hq]
    · simp [postStep, renderPage]
    · simp [postStep, List.lookup]

/-- Witness for C1: a concrete POST request with query `"hi"`, no
cookies, identity model and empty retrieval. -/
theorem home_post_appends_two_turns_witness :
    ∃ r, home (fun _ => []) (fun s => s) (fun _ => some []) (fun _ => "dumped")
        { method := Method.POST, cookies := [], form := [("query", "hi")], args := [] } =
        some r ∧
      r.page.conversation =
        [] ++ [{ role := "user", content := "hi" },
               { role := "bot",
                 content := qa_chain_run (fun _ => []) (fun s => s) "hi" }] ∧
      List.lookup "conversation" r.setCookies =
        some ((fun _ => "dumped")
          ([] ++ [({ role := "user", content := "hi" } : Turn),
                  { role := "bot",
                    content := qa_chain_run (fun _ => []) (fun s => s) "hi" }])) ∧
      r.llmCalls = ["hi"] ∧
      qa_chain_run (fun _ => []) (fun s => s) "hi" =
        (fun s => s) (makePrompt ((fun _ => ([] : List Document)) "hi") "hi") :=
  home_post_appends_two_turns (fun _ => []) (fun s => s) (fun _ => some [])
    (fun _ => "dumped")
    { method := Method.POST, cookies := [], form := [("query", "hi")], args := [] }
    "hi" [] rfl (by decide) rfl

/-- C5: the app registers exactly one route, `/`, accepting exactly GET
and POST; a GET handled successfully makes no call to the QA chain, and
a POST handled successfully sends exactly its `query` form field to the
chain. -/
theorem single_route_get_post :
    routes = [("/", [Method.GET, Method.POST])] ∧
    (∀ retriever llm parseConv dumpConv req r,
      req.method = Method.GET →
      home retriever llm parseConv dumpConv req = some r →
      r.llmCalls = []) ∧
    (∀ retriever llm parseConv dumpConv req r,
      req.method = Method.POST →
      home retriever llm parseConv dumpConv req = some r →
      ∃ q, List.lookup "query" req.form = some q ∧ r.llmCalls = [q]) := by
  refine ⟨rfl, ?_, ?_⟩
  · intro retriever llm parseConv dumpConv req r hm hr
    cases hc : readConversation parseConv req.cookies with
    | none => simp [home, hc] at hr
    | some conv =>
      simp only [home, hc, hm] at hr
      rw [Option.some_inj] at hr
      obtain rfl := hr
      rfl
  · intro retriever llm parseConv dumpConv req r hm hr
    cases hc : readConversation parseConv req.cookies with
    | none => simp [home, hc] at hr
    | some conv =>
      cases hq : List.lookup "query" req.form with
      | none => simp [home, hc, hm, hq] at hr
      | some q =>
        refine ⟨q, rfl, ?_⟩
        simp only [home, hc, hm, hq] at hr
        rw [Option.some_inj] at hr
        obtain rfl := hr
        rfl

/-- Witness for C5: a concrete GET request is handled with no chain
call. -/
theorem single_route_get_post_witness :
    ({ method := Method.GET, cookies := [], form := [], args := [] } : Request).method =
      Method.GET ∧
    home (fun _ => []) (fun s => s) (fun _ => some []) (fun _ => "d")
        { method := Method.GET, cookies := [], form := [], args := [] } =
      some { page := { theme := "light", conversation := [], showWelcome := true },
             setCookies := [], llmCalls := [] } ∧
    ({ page := { theme := "light", conversation := [], showWelcome := true },
       setCookies := [], llmCalls := [] } : HandlerResult).llmCalls = [] :=
  ⟨rfl, by decide,
   single_route_get_post.2.1 (fun _ => []) (fun s => s) (fun _ => some [])
     (fun _ => "d")
     { method := Method.GET, cookies := [], form := [], args := [] }
     { page := { theme := "light", conversation := [], showWelcome := true },
       setCookies := [], llmCalls := [] }
     rfl (by decide)⟩

/-- C6 (amended): whenever the `toggle_theme` query parameter is present (with a
truthy, i.e. non-empty, value), the theme cookie set on the response is
the toggle of the incoming theme (`dark` when the incoming theme is
`light`, `light` otherwise); the toggle is an involution on the two
states `light` and `dark` and only ever produces `light` or `dark`. -/
theorem theme_toggle_spec :
    (∀ retriever llm parseConv dumpConv req r v,
      home retriever llm parseConv dumpConv req = some r →
      List.lookup "toggle_theme" req.args = some v → v ≠ "" →
      List.lookup "theme" r.setCookies =
        some (toggledTheme (cookiesGet req.cookies "theme" "light"))) ∧
    toggledTheme "light" = "dark" ∧
    toggledTheme (toggledTheme "light") = "light" ∧
    toggledTheme (toggledTheme "dark") = "dark" ∧
    (∀ t, toggledTheme t = "light" ∨ toggledTheme t = "dark") := by
  refine ⟨?_, rfl, rfl, rfl, ?_⟩
  · intro retriever llm parseConv dumpConv req r v hr ht hv
    cases hc : readConversation parseConv req.cookies with
    | none => simp [home, hc] at hr
    | some conv =>
      cases hm : req.method with
      | GET =>
        simp only [home, hc, hm, ht] at hr
        rw [Option.some_inj] at hr
        obtain rfl := hr
        simp [List.lookup, hv]
      | POST =>
        cases hq : List.lookup "query" req.form with
        | none => simp [home, hc, hm, hq] at hr
        | some q =>
          simp only [home, hc, hm, hq, ht] at hr
          rw [Option.some_inj] at hr
          obtain rfl := hr
          simp [List.lookup, hv]
  · intro t
    by_cases h : t == "light" <;> simp [toggledTheme, h]

/-- Witness for C6: toggling from the default (`light`) theme on a
concrete GET request sets the `theme` cookie to `dark`. -/
theorem theme_toggle_spec_witness :
    List.lookup "theme"
        ({ page := { theme := "light", conversation := [], showWelcome := true },
           setCookies := [("theme", "dark")], llmCalls := [] } : HandlerResult).setCookies =
      some (toggledTheme (cookiesGet [] "theme" "light")) :=
  theme_toggle_spec.1 (fun _ => []) (fun s => s) (fun _ => some []) (fun _ => "d")
    { method := Method.GET, cookies := [], form := [], args := [("toggle_theme", "1")] }
    { page := { theme := "light", conversation := [], showWelcome := true },
      setCookies := [("theme", "dark")], llmCalls := [] }
    "1" (by decide) (by decide) (by decide)

/-- Counterexample to C6 as stated: a request that carries the
`toggle_theme` query parameter with an empty value (Flask yields the
empty string for a bare or empty parameter, which is falsy in Python)
receives no `theme` cookie at all, contradicting "on any request with
the toggle_theme query parameter, the theme cookie set on the response
is dark if the incoming theme was light and light otherwise". -/
theorem theme_toggle_empty_value_counterexample :
    List.lookup "toggle_theme"
        ({ method := Method.GET, cookies := [], form := [],
           args := [("toggle_theme", "")] } : Request).args = some "" ∧
    home (fun _ => []) (fun s => s) (fun _ => some []) (fun _ => "d")
        { method := Method.GET, cookies := [], form := [],
          args := [("toggle_theme", "")] } =
      some { page := { theme := "light", conversation := [], showWelcome := true },
             setCookies := [], llmCalls := [] } ∧
    ¬ (List.lookup "theme"
        ({ page := { theme := "light", conversation := [], showWelcome := true },
           setCookies := [], llmCalls := [] } : HandlerResult).setCookies =
       some (toggledTheme (cookiesGet ([] : List (String × String)) "theme" "light"))) :=
  ⟨rfl, by decide, by decide⟩

/-- C7: the conversation is read from the `conversation` cookie; an
absent cookie yields the empty conversation, and the template shows the
welcome message exactly when the rendered conversation is empty — in
particular a GET with no `conversation` cookie renders the welcome
message and no chat turns. -/
theorem conversation_cookie_read_spec :
    (∀ (parseConv : String → Option (List Turn)) (cookies : List (String × String)),
      List.lookup "conversation" cookies = none →
      readConversation parseConv cookies = some []) ∧
    (∀ retriever llm parseConv dumpConv req r,
      home retriever llm parseConv dumpConv req = some r →
      r.page.showWelcome = r.page.conversation.isEmpty) ∧
    (∀ retriever llm parseConv dumpConv req,
      req.method = Method.GET →
      List.lookup "conversation" req.cookies = none →
      ∃ r, home retriever llm parseConv dumpConv req = some r ∧
        r.page.conversation = [] ∧ r.page.showWelcome = true) := by
  refine ⟨?_, ?_, ?_⟩
  · intro parseConv cookies h
    simp [readConversation, h]
  · intro retriever llm parseConv dumpConv req r hr
    cases hc : readConversation parseConv req.cookies with
    | none => simp [home, hc] at hr
    | some conv =>
      cases hm : req.method with
      | GET =>
        simp only [home, hc, hm] at hr
        rw [Option.some_inj] at hr
        obtain rfl := hr
        rfl
      | POST =>
        cases hq : List.lookup "query" req.form with
        | none => simp [home, hc, hm, hq] at hr
        | some q =>
          simp only [home, hc, hm, hq] at hr
          rw [Option.some_inj] at hr
          obtain rfl := hr
          rfl
  · intro retriever llm parseConv dumpConv req hm h
    have hc : readConversation parseConv req.cookies = some [] := by
      simp [readConversation, h]
    refine ⟨{ page := renderPage (cookiesGet req.cookies "theme" "light") []
              setCookies := [] ++
                (match List.lookup "toggle_theme" req.args with
                 | none => []
                 | some v => if v == "" then []
                   else [("theme", toggledTheme (cookiesGet req.cookies "theme" "light"))])
              llmCalls := [] }, ?_, rfl, rfl⟩
    simp [home, hc, hm]

/-- Witness for C7: an absent cookie parses to the empty conversation,
and a concrete handled request shows the welcome message exactly when its
conversation is empty. -/
theorem conversation_cookie_read_spec_witness :
    readConversation (fun _ => some []) ([] : List (String × String)) = some [] ∧
    ({ page := { theme := "light", conversation := [], showWelcome := true },
       setCookies := [], llmCalls := [] } : HandlerResult).page.showWelcome =
      ({ page := { theme := "light", conversation := [], showWelcome := true },
         setCookies := [], llmCalls := [] } : HandlerResult).page.conversation.isEmpty :=
  ⟨conversation_cookie_read_spec.1 (fun _ => some []) [] rfl,
   conversation_cookie_read_spec.2.1 (fun _ => []) (fun s => s) (fun _ => some [])
     (fun _ => "d") { method := Method.GET, cookies := [], form := [], args := [] }
     { page := { theme := "light", conversation := [], showWelcome := true },
       setCookies := [], llmCalls := [] } (by decide)⟩

/-- C8: a GET to `/` never sets the `conversation` cookie, so the stored
conversation is unchanged by any GET; in particular the "Clear
Conversation" link — a plain link to `/`, hence a GET — does not clear
the persisted conversation cookie. -/
theorem get_request_preserves_conversation_cookie :
    clear_conversation_href = "/" ∧
    ∀ retriever llm parseConv dumpConv req r,
      req.method = Method.GET →
      home retriever llm parseConv dumpConv req = some r →
      List.lookup "conversation" r.setCookies = none := by
  refine ⟨rfl, ?_⟩
  intro retriever llm parseConv dumpConv req r hm hr
  cases hc : readConversation parseConv req.cookies with
  | none => simp [home, hc] at hr
  | some conv =>
    simp only [home, hc, hm] at hr
    rw [Option.some_inj] at hr
    obtain rfl := hr
    cases ht : List.lookup "toggle_theme" req.args with
    | none => simp [ht, List.lookup]
    | some v =>
      by_cases hv : v = "" <;> simp [ht, hv, List.lookup]

/-- Witness for C8: a concrete GET (the "Clear Conversation" link's
request shape) sets no `conversation` cookie. -/
theorem get_request_preserves_conversation_cookie_witness :
    List.lookup "conversation"
        ({ page := { theme := "light",
                     conversation := [{ role := "user", content := "hi" }],
                     showWelcome := false },
           setCookies := [], llmCalls := [] } : HandlerResult).setCookies = none :=
  get_request_preserves_conversation_cookie.2 (fun _ => []) (fun s => s)
    (fun _ => some [{ role := "user", content := "hi" }]) (fun _ => "d")
    { method := Method.GET, cookies := [("conversation", "x")], form := [], args := [] }
    { page := { theme := "light",
                conversation := [{ role := "user", content := "hi" }],
                showWelcome := false },
      setCookies := [], llmCalls := [] }
    rfl (by decide)

/-- C10: a present `conversation` cookie that `json.loads` cannot parse
makes the request raise (the handler produces no response); the
empty-conversation default applies only when the cookie is absent. -/
theorem invalid_conversation_cookie_raises :
    (∀ retriever llm parseConv dumpConv req v,
      List.lookup "conversation" req.cookies = some v →
      parseConv v = none →
      home retriever llm parseConv dumpConv req = none) ∧
    (∀ (parseConv : String → Option (List Turn)) (cookies : List (String × String)),
      List.lookup "conversation" cookies = none →
      readConversation parseConv cookies = some []) := by
  refine ⟨?_, ?_⟩
  · intro retriever llm parseConv dumpConv req v hv hp
    have hc : readConversation parseConv req.cookies = none := by
      simp [readConversation, cookiesGet, hv, hp]
    simp [home, hc]
  · intro parseConv cookies h
    simp [readConversation, h]

/-- Witness for C10: a concrete request whose `conversation` cookie does
not parse produces no response. -/
theorem invalid_conversation_cookie_raises_witness :
    home (fun _ => []) (fun s => s) (fun _ => none) (fun _ => "d")
      { method := Method.GET, cookies := [("conversation", "notjson")],
        form := [], args := [] } = none :=
  invalid_conversation_cookie_raises.1 (fun _ => []) (fun s => s) (fun _ => none)
    (fun _ => "d")
    { method := Method.GET, cookies := [("conversation", "notjson")],
      form := [], args := [] }
    "notjson" (by decide) rfl

theorem userBotAlternating_append (u b : Turn) (hu : u.role = "user")
    (hb : b.role = "bot") :
    ∀ c : List Turn, userBotAlternating c = true →
      userBotAlternating (c ++ [u, b]) = true
  | [], _ => by simp [userBotAlternating, hu, hb]
  | [x], h => by simp [userBotAlternating] at h
  | x :: y :: rest, h => by
    simp only [userBotAlternating, Bool.and_eq_true] at h
    simp only [List.cons_append, userBotAlternating, Bool.and_eq_true]
    exact ⟨h.1, userBotAlternating_append u b hu hb rest h.2⟩

theorem userBotAlternating_even :
    ∀ c : List Turn, userBotAlternating c = true → Even c.length
  | [], _ => by simp
  | [x], h => by simp [userBotAlternating] at h
  | x :: y :: rest, h => by
    simp only [userBotAlternating, Bool.and_eq_true] at h
    obtain ⟨k, hk⟩ := userBotAlternating_even rest h.2
    refine ⟨k + 1, ?_⟩
    simp only [List.length_cons, hk]
    omega

theorem userBotAlternating_roles :
    ∀ c : List Turn, userBotAlternating c = true →
      ∀ t ∈ c, t.role = "user" ∨ t.role = "bot"
  | [], _ => by simp
  | [x], h => by simp [userBotAlternating] at h
  | x :: y :: rest, h => by
    simp only [userBotAlternating, Bool.and_eq_true, beq_iff_eq] at h
    intro t ht
    simp only [List.mem_cons] at ht
    rcases ht with rfl | rfl | ht
    · exact Or.inl h.1.1
    · exact Or.inr h.1.2
    · exact userBotAlternating_roles rest h.2 t ht

/-- C9: on every POST the server writes to the `conversation` cookie
exactly the incoming conversation extended by `postStep` (one user turn
then one bot turn, each a record with exactly the fields `role` and
`content`); consequently every conversation reachable from the empty one
through server writes strictly alternates `user`, `bot`, `user`, `bot`,
..., has even length, and every entry's role is `user` or `bot`. -/
theorem conversation_write_invariant :
    (∀ retriever llm parseConv dumpConv req r conv q,
      req.method = Method.POST →
      readConversation parseConv req.cookies = some conv →
      List.lookup "query" req.form = some q →
      home retriever llm parseConv dumpConv req = some r →
      List.lookup "conversation" r.setCookies =
        some (dumpConv (postStep retriever llm conv q))) ∧
    (∀ retriever llm c, ReachableConv retriever llm c →
      userBotAlternating c = true ∧ Even c.length ∧
      ∀ t ∈ c, t.role = "user" ∨ t.role = "bot") := by
  refine ⟨?_, ?_⟩
  · intro retriever llm parseConv dumpConv req r conv q hm hc hq hr
    simp only [home, hc, hm, hq] at hr
    rw [Option.some_inj] at hr
    obtain rfl := hr
    simp [List.lookup]
  · intro retriever llm c h
    have halt : userBotAlternating c = true := by
      induction h with
      | nil => rfl
      | step c q hc ih =>
        exact userBotAlternating_append _ _ rfl rfl c ih
    exact ⟨halt, userBotAlternating_even c halt, userBotAlternating_roles c halt⟩

/-- Witness for C9: the conversation after one POST starting from the
empty conversation alternates and has even length. -/
theorem conversation_write_invariant_witness :
    userBotAlternating (postStep (fun _ => []) (fun s => s) [] "hi") = true ∧
    Even (postStep (fun _ => []) (fun s => s) [] "hi").length :=
  ⟨(conversation_write_invariant.2 (fun _ => []) (fun s => s)
      (postStep (fun _ => []) (fun s => s) [] "hi")
      (ReachableConv.step [] "hi" ReachableConv.nil)).1,
   (conversation_write_invariant.2 (fun _ => []) (fun s => s)
      (postStep (fun _ => []) (fun s => s) [] "hi")
      (ReachableConv.step [] "hi" ReachableConv.nil)).2.1⟩

end LegalBot
